import Mathlib

set_option maxRecDepth 8000

/-!
Shallow embedding of the component-tagger repository's core tagging logic:
the path/attribute vocabulary (`src/packages/app/src/core/component-path.ts`),
the JSX tagging engine (`shouldTagElement`, `attrExists`, `createPathAttribute`,
`processJsxElement` in `src/packages/app/src/shell/babel-plugin.ts`), the
Babel-state root resolution (`getContextFromState`), and the CommonJS shim
(`src/packages/app/babel.cjs`). Babel AST nodes are modelled as inductive
types; the node mutation performed by `processJsxElement` is modelled by
explicit state passing (the function returns the updated node together with
its boolean result).
-/

/- ### Vocabulary: component-path.ts -/

/-- `export const componentPathAttributeName = "path"` (component-path.ts). -/
def componentPathAttributeName : String := "path"

/-- One character step of the JS regex `.` metacharacter (no `s` flag):
matches every character except the four ECMAScript line terminators. -/
def regexDotMatches (ch : Char) : Bool :=
  !(ch == '\n' || ch == '\r' || ch == ' ' || ch == ' ')

/-- The optional group `(\?.*)?` of `jsxFilePattern`, applied to the tail of
the candidate string: either the tail is empty (group absent, `$` reached) or
it starts with `?` and the rest consists of `.`-matchable characters. -/
def jsxQueryGroupMatches (cs : List Char) : Bool :=
  match cs with
  | [] => true
  | c :: rest => c == '?' && rest.all regexDotMatches

/-- The alternation `\.(tsx|jsx)` anchored at the end of the path part:
the candidate prefix ends with `.tsx` or `.jsx`. -/
def jsxExtensionSuffix (cs : List Char) : Bool :=
  ".tsx".data.isSuffixOf cs || ".jsx".data.isSuffixOf cs

/-- Match semantics of `jsxFilePattern = /\.(tsx|jsx)(\?.*)?$/u`: some split of
the string puts `\.(tsx|jsx)` at the end of the prefix and lets `(\?.*)?$`
consume the suffix. -/
def jsxFilePatternMatches (cs : List Char) : Bool :=
  (List.range (cs.length + 1)).any
    (fun i => jsxExtensionSuffix (cs.take i) && jsxQueryGroupMatches (cs.drop i))

/-- `export const isJsxFile = (id: string): boolean => jsxFilePattern.test(id)`
(component-path.ts). -/
def isJsxFile (id : String) : Bool := jsxFilePatternMatches id.data

/-- `formatComponentPathValue(relativeFilename, line, column)` returns the
template literal `${relativeFilename}:${line}:${column}` (component-path.ts).
Parser-sourced lines and columns are non-negative integers, embedded as `Nat`,
whose JS decimal rendering agrees with `Nat` `toString`. -/
def formatComponentPathValue (relativeFilename : String) (line column : Nat) : String :=
  relativeFilename ++ ":" ++ toString line ++ ":" ++ toString column

/-- `isHtmlTag` (component-path.ts): empty string is rejected, otherwise the
first code point must lie in the ASCII lowercase range 97..122. -/
def isHtmlTag (elementName : String) : Bool :=
  if elementName.length == 0 then
    false
  else
    match elementName.data.head? with
    | none => false
    | some firstChar => decide (97 ≤ firstChar.toNat) && decide (firstChar.toNat ≤ 122)

/- ### Babel AST model (the node shapes the tagger reads) -/

/-- Name of a JSX opening element: `JSXIdentifier`, `JSXMemberExpression`
(e.g. `Foo.Bar`; the tagger never reads its parts, carried for shape only),
`JSXNamespacedName` (e.g. `svg:path`), or any other (unrecognized) node kind. -/
inductive JSXElementName where
  | jsxIdentifier (name : String)
  | jsxMemberExpression (objectName propertyName : String)
  | jsxNamespacedName (namespaceName localName : String)
  | otherName
  deriving DecidableEq

/-- Name of a JSX attribute: a `JSXIdentifier` or a `JSXNamespacedName`. -/
inductive JSXAttrName where
  | ident (name : String)
  | namespacedName (namespaceName localName : String)
  deriving DecidableEq

/-- Value of a JSX attribute: a string literal (the only value the tagger
constructs) or any other expression container. -/
inductive JSXAttrValue where
  | stringLiteral (value : String)
  | otherValue
  deriving DecidableEq

/-- An entry of a JSX opening element's attribute list: a named
`JSXAttribute` (value possibly absent) or a `JSXSpreadAttribute`. -/
inductive JSXAttributeLike where
  | jsxAttribute (name : JSXAttrName) (value : Option JSXAttrValue)
  | jsxSpreadAttribute
  deriving DecidableEq

/-- A source position: Babel's 1-based line and 0-based column. -/
structure Position where
  line : Nat
  column : Nat
  deriving DecidableEq

/-- A source location record; the tagger only reads `loc.start`. -/
structure SourceLocation where
  start : Position
  deriving DecidableEq

/-- A JSX opening element: its name, its ordered attribute list, and its
nullable location (`node.loc === null || node.loc === undefined` is `none`). -/
structure JSXOpeningElement where
  name : JSXElementName
  attributes : List JSXAttributeLike
  loc : Option SourceLocation
  deriving DecidableEq

/- ### JSX tagging engine (babel-plugin.ts lines 385-640) -/

/-- `JsxTaggerOptions`: `tagComponents?: boolean | undefined`. -/
structure JsxTaggerOptions where
  tagComponents : Option Bool
  deriving DecidableEq

/-- `JsxTaggerContext`: relative filename, attribute name, optional options. -/
structure JsxTaggerContext where
  relativeFilename : String
  attributeName : String
  options : Option JsxTaggerOptions
  deriving DecidableEq

/-- The predicate inside `attrExists`'s `some(...)` callback:
`types.isJSXAttribute(attr) && types.isJSXIdentifier(attr.name, { name: attrName })`
— a non-spread attribute whose name node is a `JSXIdentifier` with exactly the
given text. -/
def isMatchingJsxAttribute (attrName : String) (attr : JSXAttributeLike) : Bool :=
  match attr with
  | .jsxAttribute (.ident name) _ => name == attrName
  | _ => false

/-- `attrExists(node, attrName, types)` (babel-plugin.ts lines 455-458). -/
def attrExists (node : JSXOpeningElement) (attrName : String) : Bool :=
  node.attributes.any (fun attr => isMatchingJsxAttribute attrName attr)

/-- `shouldTagElement(node, options, types)` (babel-plugin.ts lines 486-515):
resolve the element name (identifier text; member expressions and unknown
shapes return false immediately; namespaced names use the namespace part),
always tag HTML (lowercase) names, otherwise use `options?.tagComponents ?? true`. -/
def shouldTagElement (node : JSXOpeningElement) (options : Option JsxTaggerOptions) : Bool :=
  let elementName? : Option String :=
    match node.name with
    | .jsxIdentifier name => some name
    | .jsxMemberExpression _ _ => none
    | .jsxNamespacedName namespaceName _ => some namespaceName
    | .otherName => none
  match elementName? with
  | none => false
  | some elementName =>
    if isHtmlTag elementName then
      true
    else
      let tagComponents := (options.bind (fun o => o.tagComponents)).getD true
      tagComponents

/-- `createPathAttribute(attributeName, relativeFilename, line, column, types)`
(babel-plugin.ts lines 539-548): a `JSXAttribute` whose name is a
`JSXIdentifier` for `attributeName` and whose value is the string literal
produced by `formatComponentPathValue`. -/
def createPathAttribute (attributeName relativeFilename : String)
    (line column : Nat) : JSXAttributeLike :=
  let value := formatComponentPathValue relativeFilename line column
  .jsxAttribute (.ident attributeName) (some (.stringLiteral value))

/-- `processJsxElement(node, context, types)` (babel-plugin.ts lines 577-602).
The source mutates `node` in place (`node.attributes.push(attr)`) and returns
a boolean; the mutation is embedded as state passing: the pair of the boolean
result and the node after the call. -/
def processJsxElement (node : JSXOpeningElement) (context : JsxTaggerContext) :
    Bool × JSXOpeningElement :=
  match node.loc with
  | none => (false, node)
  | some loc =>
    if attrExists node context.attributeName then
      (false, node)
    else if !shouldTagElement node context.options then
      (false, node)
    else
      let line := loc.start.line
      let column := loc.start.column
      let attr := createPathAttribute context.attributeName context.relativeFilename line column
      (true, { node with attributes := node.attributes ++ [attr] })

/- ### Babel-state root resolution (babel-plugin.ts lines 12-91) -/

/-- `ComponentTaggerBabelPluginOptions`: `rootDir?: string`. -/
structure ComponentTaggerBabelPluginOptions where
  rootDir : Option String
  deriving DecidableEq

/-- `BabelState`: `filename?`, `cwd?`, `opts?`. -/
structure BabelState where
  filename : Option String
  cwd : Option String
  opts : Option ComponentTaggerBabelPluginOptions
  deriving DecidableEq

/-- The root string computed by `getContextFromState` (babel-plugin.ts line 87):
`state.opts?.rootDir ?? state.cwd ?? ""`. -/
def getContextRootDir (state : BabelState) : String :=
  ((state.opts.bind (fun o => o.rootDir)).getD (state.cwd.getD ""))

/-- Models the documented behavior of the external Node path capability used by
`path.relative(rootDir, filename)` / the Effect `Path` service: `relative`
resolves each argument against the host process's current working directory
first, so the empty-string root denotes the process cwd, while a non-empty
(absolute) root denotes itself. -/
def resolveRootAgainstCwd (procCwd root : String) : String :=
  if root = "" then procCwd else root

/-- Effective root directory the TypeScript Babel-plugin integration feeds to
the relative-path computation, after the path capability resolves it. -/
def tsEffectiveRoot (state : BabelState) (procCwd : String) : String :=
  resolveRootAgainstCwd procCwd (getContextRootDir state)

/- ### CommonJS shim (babel.cjs lines 23-81) -/

/-- `babel.cjs`: `const componentPathAttributeName = "data-path"`. -/
def cjsComponentPathAttributeName : String := "data-path"

/-- `babel.cjs`: `const isJsxFile = (id) => jsxFilePattern.test(id)` — the shim
re-declares the identical pattern `/\.(tsx|jsx)(\?.*)?$/u`. -/
def cjsIsJsxFile (id : String) : Bool := jsxFilePatternMatches id.data

/-- Options accepted by the CommonJS shim: `{ rootDir?, attributeName? }`. -/
structure CjsPluginOptions where
  rootDir : Option String
  attributeName : Option String
  deriving DecidableEq

/-- Babel state as read by the CommonJS shim: `filename`, `cwd`, `opts`. -/
structure CjsBabelState where
  filename : Option String
  cwd : Option String
  opts : Option CjsPluginOptions
  deriving DecidableEq

/-- JavaScript `a || b` on an optional string: an absent or empty (falsy)
string selects the fallback. -/
def jsOrString (value : Option String) (fallback : String) : String :=
  match value with
  | some s => if s = "" then fallback else s
  | none => fallback

/-- The shim's `const opts = state.opts || {}`. -/
def cjsStateOpts (state : CjsBabelState) : CjsPluginOptions :=
  state.opts.getD { rootDir := none, attributeName := none }

/-- The shim's `const rootDir = opts.rootDir || state.cwd || process.cwd()`. -/
def cjsEffectiveRootDir (state : CjsBabelState) (procCwd : String) : String :=
  jsOrString (cjsStateOpts state).rootDir (jsOrString state.cwd procCwd)

/-- The shim's `const attributeName = opts.attributeName || componentPathAttributeName`. -/
def cjsEffectiveAttributeName (state : CjsBabelState) : String :=
  jsOrString (cjsStateOpts state).attributeName cjsComponentPathAttributeName

/-- Effective root of the CommonJS shim after the path capability resolves it
(see `resolveRootAgainstCwd`). -/
def cjsEffectiveRoot (state : CjsBabelState) (procCwd : String) : String :=
  resolveRootAgainstCwd procCwd (cjsEffectiveRootDir state procCwd)

/-- The shim's `JSXOpeningElement(nodePath, state)` visitor body
(babel.cjs lines 42-78), with the external `process.cwd()` value and the
external `path.relative` capability passed as parameters. Checks, in source
order: filename present, location present, JSX file, then computes the root,
attribute name and relative filename, then the idempotency check, then the
push; the node after the visit is returned. -/
def cjsVisitJSXOpeningElement (node : JSXOpeningElement) (state : CjsBabelState)
    (procCwd : String) (pathRelative : String → String → String) : JSXOpeningElement :=
  match state.filename with
  | none => node
  | some filename =>
    match node.loc with
    | none => node
    | some loc =>
      if !cjsIsJsxFile filename then
        node
      else
        let rootDir := cjsEffectiveRootDir state procCwd
        let attributeName := cjsEffectiveAttributeName state
        let relativeFilename := pathRelative rootDir filename
        if attrExists node attributeName then
          node
        else
          let value := formatComponentPathValue relativeFilename loc.start.line loc.start.column
          { node with attributes := node.attributes ++
              [JSXAttributeLike.jsxAttribute (.ident attributeName)
                (some (.stringLiteral value))] }

/- ### Claim-side (spec-worded) definitions and measures -/

/-- Claim-side definition following the spec's words for C1: the
classification name of an element name — the identifier text for a simple
identifier, the namespace identifier's text for a namespaced name, and no
name at all for member expressions and unrecognized shapes. -/
def specClassificationName : JSXElementName → Option String
  | .jsxIdentifier name => some name
  | .jsxNamespacedName namespaceName _ => some namespaceName
  | .jsxMemberExpression _ _ => none
  | .otherName => none

/-- Claim-side definition following the spec's words for C8: the path portion
of a module identifier, the part before the (first) trailing `?`-prefixed
query, as the spec's module-id normalization defines it. -/
def specPathPortion (id : String) : String :=
  String.mk (id.data.takeWhile (fun c => !(c == '?')))

/-- Claim-side definition for C8: the claim's reading of `isJsxFile` — the
path portion (query stripped) ends in `.tsx` or `.jsx`. -/
def specClaimIsJsxFile (id : String) : Bool :=
  jsxExtensionSuffix (specPathPortion id).data

/-- Number of attributes on a node matching `attrExists`'s predicate for the
given name (a measure used by the invariant theorems). -/
def countNamedAttrs (node : JSXOpeningElement) (attrName : String) : Nat :=
  node.attributes.countP (fun attr => isMatchingJsxAttribute attrName attr)

/- ### Concrete fixtures for witnesses and counterexamples -/

/-- Default engine context: default attribute name, no options. -/
def defaultCtx : JsxTaggerContext :=
  { relativeFilename := "src/App.tsx", attributeName := "data-path", options := none }

/-- A plain lowercase element with a location and no attributes. -/
def divNode : JSXOpeningElement :=
  { name := .jsxIdentifier "div", attributes := [], loc := some { start := { line := 10, column := 5 } } }

/-- A location-free element (synthetic nodes lack locations). -/
def noLocNode : JSXOpeningElement :=
  { name := .jsxIdentifier "div", attributes := [], loc := none }

/-- A node already carrying two same-named `data-path` attributes (duplicate
same-named JSX attributes are grammatically legal input). -/
def dupAttrNodeA : JSXOpeningElement :=
  { name := .jsxIdentifier "div",
    attributes :=
      [.jsxAttribute (.ident "data-path") (some (.stringLiteral "existing:1:0")),
       .jsxAttribute (.ident "data-path") (some (.stringLiteral "other:2:0"))],
    loc := some { start := { line := 3, column := 1 } } }

/-- A second node with two duplicate `data-path` attributes. -/
def dupAttrNodeB : JSXOpeningElement :=
  { name := .jsxIdentifier "span",
    attributes :=
      [.jsxAttribute (.ident "data-path") (some (.stringLiteral "a:1:0")),
       .jsxAttribute (.ident "data-path") (some (.stringLiteral "b:2:0"))],
    loc := some { start := { line := 7, column := 0 } } }

/-- A member-expression-named (hence policy-ineligible) node that already
carries exactly one `data-path` attribute. -/
def preTaggedMemberNode : JSXOpeningElement :=
  { name := .jsxMemberExpression "Foo" "Bar",
    attributes :=
      [.jsxAttribute (.ident "data-path") (some (.stringLiteral "existing:1:0"))],
    loc := some { start := { line := 4, column := 2 } } }

/-- A member-expression-named node with a location and no attributes. -/
def cjsMemberNode : JSXOpeningElement :=
  { name := .jsxMemberExpression "Foo" "Bar", attributes := [],
    loc := some { start := { line := 3, column := 7 } } }

/-- A shim Babel state with a JSX filename, a working directory, no options. -/
def cjsDemoState : CjsBabelState :=
  { filename := some "/proj/src/App.tsx", cwd := some "/proj", opts := none }

/-- An engine context configured with a custom attribute name. -/
def customCtx : JsxTaggerContext :=
  { relativeFilename := "src/App.tsx", attributeName := "custom-path", options := none }

/-- Builder for a TypeScript Babel state with the given working directory and
`rootDir` option (filename irrelevant to root resolution). -/
def tsStateNoFile (cwd rootDir : Option String) : BabelState :=
  { filename := none, cwd := cwd, opts := some { rootDir := rootDir } }

/-- Builder for a CommonJS shim state with the given working directory and
`rootDir` option. -/
def cjsStateNoFile (cwd rootDir : Option String) : CjsBabelState :=
  { filename := none, cwd := cwd, opts := some { rootDir := rootDir, attributeName := none } }

/- ### Helper lemmas shared by the claim theorems -/

theorem attrExists_iff_exists_mem (node : JSXOpeningElement) (attrName : String) :
    attrExists node attrName = true ↔
      ∃ attr ∈ node.attributes, isMatchingJsxAttribute attrName attr = true := by
  simp [attrExists, List.any_eq_true]

theorem attrExists_iff_countNamedAttrs_pos (node : JSXOpeningElement) (attrName : String) :
    attrExists node attrName = true ↔ 0 < countNamedAttrs node attrName := by
  rw [attrExists_iff_exists_mem, countNamedAttrs]
  exact List.countP_pos_iff.symm

theorem attrExists_false_iff (node : JSXOpeningElement) (attrName : String) :
    attrExists node attrName = false ↔ countNamedAttrs node attrName = 0 := by
  rw [← Bool.not_eq_true, attrExists_iff_countNamedAttrs_pos]
  omega

theorem isMatchingJsxAttribute_createPathAttribute (attrName an f : String) (l c : Nat) :
    isMatchingJsxAttribute attrName (createPathAttribute an f l c) = (an == attrName) := rfl

theorem processJsxElement_noLoc (node : JSXOpeningElement) (context : JsxTaggerContext)
    (hloc : node.loc = none) : processJsxElement node context = (false, node) := by
  simp [processJsxElement, hloc]

theorem processJsxElement_existing (node : JSXOpeningElement) (context : JsxTaggerContext)
    (hattr : attrExists node context.attributeName = true) :
    processJsxElement node context = (false, node) := by
  cases hl : node.loc with
  | none => simp [processJsxElement, hl]
  | some loc => simp [processJsxElement, hl, hattr]

theorem processJsxElement_tag (node : JSXOpeningElement) (context : JsxTaggerContext)
    (loc : SourceLocation) (hloc : node.loc = some loc)
    (hattr : attrExists node context.attributeName = false)
    (hshould : shouldTagElement node context.options = true) :
    processJsxElement node context =
      (true, { node with attributes := node.attributes ++
        [createPathAttribute context.attributeName context.relativeFilename
          loc.start.line loc.start.column] }) := by
  simp [processJsxElement, hloc, hattr, hshould]

/- ### Claim theorems -/

/-- Claim C9: `isHtmlTag s` is true iff `s` is non-empty and its first
character is an ASCII lowercase letter (code points 97-122); the empty string
and digit-, underscore-, dollar-, uppercase- and non-ASCII-leading names all
return false. -/
theorem isHtmlTag_classification :
    (∀ s : String, isHtmlTag s = true ↔
      ∃ c rest, s.data = c :: rest ∧ 97 ≤ c.toNat ∧ c.toNat ≤ 122) ∧
    isHtmlTag "" = false ∧ isHtmlTag "1div" = false ∧ isHtmlTag "_c" = false ∧
    isHtmlTag "$x" = false ∧ isHtmlTag "MyComponent" = false ∧ isHtmlTag "Ωa" = false ∧
    isHtmlTag "div" = true ∧ isHtmlTag "a" = true := by
  refine ⟨?_, by decide, by decide, by decide, by decide, by decide, by decide,
    by decide, by decide⟩
  intro s
  obtain ⟨data⟩ := s
  cases data with
  | nil => simp [isHtmlTag]
  | cons c rest => simp [isHtmlTag, String.length]

/-- Claim C1: `shouldTagElement e opts` is true iff the classification name of
`e` (identifier text for a simple identifier, the namespace part for a
namespaced name, nothing for member-expression or unrecognized names) exists
and is either an HTML name or `opts.tagComponents` is not explicitly false. -/
theorem shouldTagElement_classification (node : JSXOpeningElement)
    (opts : Option JsxTaggerOptions) :
    shouldTagElement node opts = true ↔
      ∃ nm, specClassificationName node.name = some nm ∧
        (isHtmlTag nm = true ∨ (opts.bind (fun o => o.tagComponents)) ≠ some false) := by
  obtain ⟨name, attrs, loc⟩ := node
  cases name with
  | jsxIdentifier nm =>
    simp only [shouldTagElement, specClassificationName, Option.some.injEq,
      exists_eq_left']
    cases h : isHtmlTag nm with
    | true => simp [h]
    | false =>
      simp only [h, Bool.false_eq_true, if_false, false_or]
      cases hb : opts.bind (fun o => o.tagComponents) with
      | none => simp [hb]
      | some b => cases b <;> simp [hb]
  | jsxMemberExpression o p => simp [shouldTagElement, specClassificationName]
  | jsxNamespacedName ns ln =>
    simp only [shouldTagElement, specClassificationName, Option.some.injEq,
      exists_eq_left']
    cases h : isHtmlTag ns with
    | true => simp [h]
    | false =>
      simp only [h, Bool.false_eq_true, if_false, false_or]
      cases hb : opts.bind (fun o => o.tagComponents) with
      | none => simp [hb]
      | some b => cases b <;> simp [hb]
  | otherName => simp [shouldTagElement, specClassificationName]

/-- Claim C8, counterexample: `isJsxFile "a?b.tsx"` is true although the part
of the id before its `?`-prefixed query is `"a"`, which ends in neither
`.tsx` nor `.jsx` — the regex may also match an extension that sits after a
`?`. -/
theorem isJsxFile_first_query_counterexample :
    isJsxFile "a?b.tsx" = true ∧ specClaimIsJsxFile "a?b.tsx" = false ∧
    specPathPortion "a?b.tsx" = "a" := by decide

/-- Claim C8 (amended): `isJsxFile id` is true iff `id` splits as `p ++ q`
where `p` ends in `.tsx` or `.jsx` and `q` is either empty or a `?`-prefixed
query containing no line terminators; the extension check applies before the
final matching query, not before the first `?` of the id. -/
theorem isJsxFile_characterization (id : String) :
    isJsxFile id = true ↔
      ∃ p q : List Char, id.data = p ++ q ∧
        (".tsx".data.isSuffixOf p = true ∨ ".jsx".data.isSuffixOf p = true) ∧
        (q = [] ∨ ∃ rest, q = '?' :: rest ∧ rest.all regexDotMatches = true) := by
  unfold isJsxFile jsxFilePatternMatches
  rw [List.any_eq_true]
  constructor
  · rintro ⟨i, hi, hp⟩
    rw [Bool.and_eq_true] at hp
    obtain ⟨hext, hq⟩ := hp
    refine ⟨id.data.take i, id.data.drop i, (List.take_append_drop i id.data).symm, ?_, ?_⟩
    · rw [jsxExtensionSuffix, Bool.or_eq_true] at hext
      exact hext
    · cases hdrop : id.data.drop i with
      | nil => exact Or.inl rfl
      | cons c rest =>
        rw [hdrop] at hq
        simp only [jsxQueryGroupMatches, Bool.and_eq_true, beq_iff_eq] at hq
        exact Or.inr ⟨rest, by rw [hq.1], hq.2⟩
  · rintro ⟨p, q, hpq, hext, hq⟩
    refine ⟨p.length, ?_, ?_⟩
    · rw [List.mem_range, hpq, List.length_append]
      omega
    · rw [Bool.and_eq_true, hpq, List.take_left, List.drop_left]
      refine ⟨?_, ?_⟩
      · rw [jsxExtensionSuffix, Bool.or_eq_true]
        exact hext
      · rcases hq with h | ⟨rest, hq2, hall⟩
        · rw [h]; rfl
        · rw [hq2]
          simp [jsxQueryGroupMatches, hall]

/-- Claim C7: `processJsxElement` is a total function and every edge case —
absent location, pre-existing same-named attribute, policy-ineligible element
— returns false with the node unchanged; in particular a location-free node is
always returned untouched with result false, for every context. -/
theorem processJsxElement_total_noop (node : JSXOpeningElement) (context : JsxTaggerContext) :
    (node.loc = none → processJsxElement node context = (false, node)) ∧
    (attrExists node context.attributeName = true →
      processJsxElement node context = (false, node)) ∧
    (shouldTagElement node context.options = false →
      processJsxElement node context = (false, node)) ∧
    ((processJsxElement node context).fst = false →
      (processJsxElement node context).snd = node) := by
  refine ⟨fun h => processJsxElement_noLoc node context h,
    fun h => processJsxElement_existing node context h, ?_, ?_⟩
  · intro h
    cases hl : node.loc with
    | none => exact processJsxElement_noLoc node context hl
    | some loc =>
      cases ha : attrExists node context.attributeName with
      | true => exact processJsxElement_existing node context ha
      | false => simp [processJsxElement, hl, ha, h]
  · intro h
    cases hl : node.loc with
    | none => rw [processJsxElement_noLoc node context hl]
    | some loc =>
      cases ha : attrExists node context.attributeName with
      | true => rw [processJsxElement_existing node context ha]
      | false =>
        cases hs : shouldTagElement node context.options with
        | false => simp [processJsxElement, hl, ha, hs]
        | true =>
          rw [processJsxElement_tag node context loc hl ha hs] at h
          cases h

/-- Claim C7 witness: a concrete location-free node is rejected unchanged. -/
theorem processJsxElement_total_noop_witness :
    processJsxElement noLocNode defaultCtx = (false, noLocNode) :=
  (processJsxElement_total_noop noLocNode defaultCtx).1 rfl

/-- Claim C2, counterexample: a node that already carries an attribute named
`data-path` with value `existing:1:0` — alongside a second, duplicate,
`data-path` attribute — is returned unchanged with result false, but it does
not end up with exactly one attribute of that name: it still has two. -/
theorem processJsxElement_preexisting_duplicate_counterexample :
    (JSXAttributeLike.jsxAttribute (.ident "data-path")
        (some (.stringLiteral "existing:1:0"))) ∈ dupAttrNodeA.attributes ∧
    (processJsxElement dupAttrNodeA defaultCtx).fst = false ∧
    countNamedAttrs (processJsxElement dupAttrNodeA defaultCtx).snd "data-path" = 2 := by
  decide

/-- Claim C2 (amended): for an eligible node with a location, the first call
tags (result true, exactly one attribute appended) and an immediately repeated
call is a no-op returning false and changing nothing; and when the node
already carries exactly one attribute named `context.attributeName`, with
value `v`, the call returns false, leaves the node unchanged, and the node
still carries exactly that one attribute with value `v` — even when the node
is ineligible under the current policy, because the idempotency check runs
before the eligibility check. -/
theorem processJsxElement_idempotent_and_preserving
    (node : JSXOpeningElement) (context : JsxTaggerContext) (v : Option JSXAttrValue) :
    (node.loc ≠ none → attrExists node context.attributeName = false →
      shouldTagElement node context.options = true →
      (processJsxElement node context).fst = true ∧
      (processJsxElement node context).snd.attributes.length = node.attributes.length + 1 ∧
      processJsxElement (processJsxElement node context).snd context =
        (false, (processJsxElement node context).snd)) ∧
    (node.attributes.filter (fun attr => isMatchingJsxAttribute context.attributeName attr) =
        [JSXAttributeLike.jsxAttribute (.ident context.attributeName) v] →
      processJsxElement node context = (false, node) ∧
      (processJsxElement node context).snd.attributes.filter
          (fun attr => isMatchingJsxAttribute context.attributeName attr) =
        [JSXAttributeLike.jsxAttribute (.ident context.attributeName) v]) := by
  constructor
  · intro hl hattr hshould
    obtain ⟨loc, hloc⟩ : ∃ loc, node.loc = some loc := by
      cases h : node.loc with
      | none => exact absurd h hl
      | some loc => exact ⟨loc, rfl⟩
    rw [processJsxElement_tag node context loc hloc hattr hshould]
    refine ⟨rfl, by simp, ?_⟩
    apply processJsxElement_existing
    simp [attrExists, createPathAttribute, isMatchingJsxAttribute]
  · intro hfilter
    have hmem : (JSXAttributeLike.jsxAttribute (.ident context.attributeName) v) ∈
        node.attributes.filter
          (fun attr => isMatchingJsxAttribute context.attributeName attr) := by
      rw [hfilter]
      exact List.mem_singleton.mpr rfl
    have hattr : attrExists node context.attributeName = true := by
      rw [attrExists_iff_exists_mem]
      obtain ⟨h1, h2⟩ := List.mem_filter.mp hmem
      exact ⟨_, h1, h2⟩
    rw [processJsxElement_existing node context hattr]
    exact ⟨rfl, hfilter⟩

/-- Claim C2 witness: a fresh `div` is tagged once and the repeated call is a
no-op; a policy-ineligible, already-tagged node is left untouched. -/
theorem processJsxElement_idempotent_and_preserving_witness :
    ((processJsxElement divNode defaultCtx).fst = true ∧
      (processJsxElement divNode defaultCtx).snd.attributes.length =
        divNode.attributes.length + 1 ∧
      processJsxElement (processJsxElement divNode defaultCtx).snd defaultCtx =
        (false, (processJsxElement divNode defaultCtx).snd)) ∧
    processJsxElement preTaggedMemberNode defaultCtx = (false, preTaggedMemberNode) := by
  constructor
  · exact (processJsxElement_idempotent_and_preserving divNode defaultCtx none).1
      (by decide) (by decide) (by decide)
  · exact ((processJsxElement_idempotent_and_preserving preTaggedMemberNode defaultCtx
      (some (.stringLiteral "existing:1:0"))).2 (by decide)).1

/-- Claim C3, counterexample: on a node that enters processing already carrying
two duplicate `data-path` attributes, the attribute sequence after processing
does not contain at most one attribute of that name — it still contains two. -/
theorem processJsxElement_at_most_one_counterexample :
    countNamedAttrs dupAttrNodeB "data-path" = 2 ∧
    ¬ countNamedAttrs (processJsxElement dupAttrNodeB defaultCtx).snd "data-path" ≤ 1 := by
  decide

/-- Claim C3 (amended): processing only ever appends at most one attribute at
the end of the attribute sequence (pre-existing attributes are never removed,
altered or reordered, and name and location are untouched); the count of
attributes named `context.attributeName` never exceeds the larger of 1 and its
pre-existing value, so it is at most one whenever the node did not already
carry duplicate same-named attributes. -/
theorem processJsxElement_mutation_discipline
    (node : JSXOpeningElement) (context : JsxTaggerContext) :
    ((processJsxElement node context).snd.attributes = node.attributes ∨
      ∃ attr, (processJsxElement node context).snd.attributes = node.attributes ++ [attr]) ∧
    countNamedAttrs (processJsxElement node context).snd context.attributeName ≤
      max 1 (countNamedAttrs node context.attributeName) ∧
    (countNamedAttrs node context.attributeName ≤ 1 →
      countNamedAttrs (processJsxElement node context).snd context.attributeName ≤ 1) ∧
    (processJsxElement node context).snd.name = node.name ∧
    (processJsxElement node context).snd.loc = node.loc := by
  cases hl : node.loc with
  | none =>
    rw [processJsxElement_noLoc node context hl]
    exact ⟨Or.inl rfl, le_max_right _ _, fun h => h, rfl, hl⟩
  | some loc =>
    cases ha : attrExists node context.attributeName with
    | true =>
      rw [processJsxElement_existing node context ha]
      exact ⟨Or.inl rfl, le_max_right _ _, fun h => h, rfl, hl⟩
    | false =>
      cases hs : shouldTagElement node context.options with
      | false =>
        have hnoop : processJsxElement node context = (false, node) := by
          simp [processJsxElement, hl, ha, hs]
        rw [hnoop]
        exact ⟨Or.inl rfl, le_max_right _ _, fun h => h, rfl, hl⟩
      | true =>
        rw [processJsxElement_tag node context loc hl ha hs]
        have hcount0 : countNamedAttrs node context.attributeName = 0 :=
          (attrExists_false_iff node context.attributeName).mp ha
        have hcount1 : countNamedAttrs
            { node with attributes := node.attributes ++
              [createPathAttribute context.attributeName context.relativeFilename
                loc.start.line loc.start.column] } context.attributeName =
            countNamedAttrs node context.attributeName + 1 := by
          simp [countNamedAttrs, List.countP_append, createPathAttribute,
            isMatchingJsxAttribute]
        refine ⟨Or.inr ⟨_, rfl⟩, ?_, ?_, rfl, hl⟩
        · rw [hcount1, hcount0]
          simp
        · intro _
          rw [hcount1, hcount0]

/-- Claim C3 witness: tagging a fresh `div` leaves at most one `data-path`
attribute on it. -/
theorem processJsxElement_mutation_discipline_witness :
    countNamedAttrs (processJsxElement divNode defaultCtx).snd defaultCtx.attributeName ≤ 1 :=
  (processJsxElement_mutation_discipline divNode defaultCtx).2.2.1 (by decide)

/-- Claim C4: `formatComponentPathValue f l c` is the literal concatenation
`f ++ ":" ++ l ++ ":" ++ c`, and whenever `processJsxElement` tags a node the
appended attribute's string-literal value is exactly
`formatComponentPathValue context.relativeFilename loc.start.line
loc.start.column`, the line and column taken verbatim from the node's
location start. -/
theorem formatComponentPathValue_payload
    (f : String) (l c : Nat) (_hl : 1 ≤ l)
    (node : JSXOpeningElement) (context : JsxTaggerContext) (loc : SourceLocation)
    (hloc : node.loc = some loc) :
    formatComponentPathValue f l c = f ++ ":" ++ toString l ++ ":" ++ toString c ∧
    ((processJsxElement node context).fst = true →
      (processJsxElement node context).snd.attributes =
        node.attributes ++
          [JSXAttributeLike.jsxAttribute (.ident context.attributeName)
            (some (.stringLiteral (formatComponentPathValue context.relativeFilename
              loc.start.line loc.start.column)))]) := by
  refine ⟨rfl, ?_⟩
  intro htag
  cases ha : attrExists node context.attributeName with
  | true =>
    rw [processJsxElement_existing node context ha] at htag
    cases htag
  | false =>
    cases hs : shouldTagElement node context.options with
    | false =>
      have hnoop : processJsxElement node context = (false, node) := by
        simp [processJsxElement, hloc, ha, hs]
      rw [hnoop] at htag
      cases htag
    | true =>
      rw [processJsxElement_tag node context loc hloc ha hs]
      rfl

/-- Claim C4 witness: the concrete payload of a `div` at line 10, column 5 in
`src/App.tsx`. -/
theorem formatComponentPathValue_payload_witness :
    formatComponentPathValue "src/App.tsx" 10 5 = "src/App.tsx:10:5" ∧
    (processJsxElement divNode defaultCtx).snd.attributes =
      divNode.attributes ++
        [JSXAttributeLike.jsxAttribute (.ident "data-path")
          (some (.stringLiteral "src/App.tsx:10:5"))] := by
  have h := formatComponentPathValue_payload "src/App.tsx" 10 5 (by decide)
    divNode defaultCtx { start := { line := 10, column := 5 } } rfl
  have h2 := h.2 (by decide)
  refine ⟨by decide, ?_⟩
  rw [h2]
  decide

theorem countNamedAttrs_append_single (node : JSXOpeningElement) (attrName an f : String)
    (l c : Nat) :
    countNamedAttrs { node with attributes := node.attributes ++
        [createPathAttribute an f l c] } attrName =
      countNamedAttrs node attrName + (if an = attrName then 1 else 0) := by
  simp [countNamedAttrs, List.countP_append, List.countP_cons, createPathAttribute,
    isMatchingJsxAttribute]

/-- Claim C6: the CommonJS shim tags unconditionally with respect to naming:
every element-opening node with a location, in a file passing the shim's JSX
check, not already carrying the configured attribute, gets the location
attribute appended whatever its name shape — the shim implements no
`tagComponents` policy and no name-shape classification. -/
theorem cjsPlugin_tags_regardless_of_naming
    (node : JSXOpeningElement) (state : CjsBabelState) (procCwd : String)
    (pathRelative : String → String → String) (filename : String) (loc : SourceLocation)
    (hfile : state.filename = some filename)
    (hjsx : cjsIsJsxFile filename = true)
    (hloc : node.loc = some loc)
    (hnew : attrExists node (cjsEffectiveAttributeName state) = false) :
    cjsVisitJSXOpeningElement node state procCwd pathRelative =
      { node with attributes := node.attributes ++
          [JSXAttributeLike.jsxAttribute (.ident (cjsEffectiveAttributeName state))
            (some (.stringLiteral (formatComponentPathValue
              (pathRelative (cjsEffectiveRootDir state procCwd) filename)
              loc.start.line loc.start.column)))] } := by
  simp [cjsVisitJSXOpeningElement, hfile, hloc, hjsx, hnew]

/-- Claim C6 witness: the shim tags a member-expression-named element
(`Foo.Bar`), which the TypeScript engine would never tag. -/
theorem cjsPlugin_tags_regardless_of_naming_witness :
    cjsVisitJSXOpeningElement cjsMemberNode cjsDemoState "/cwd" (fun _ f => f) =
      { cjsMemberNode with attributes := cjsMemberNode.attributes ++
          [JSXAttributeLike.jsxAttribute (.ident (cjsEffectiveAttributeName cjsDemoState))
            (some (.stringLiteral (formatComponentPathValue
              ((fun _ f => f) (cjsEffectiveRootDir cjsDemoState "/cwd") "/proj/src/App.tsx")
              3 7)))] } :=
  cjsPlugin_tags_regardless_of_naming cjsMemberNode cjsDemoState "/cwd" (fun _ f => f)
    "/proj/src/App.tsx" { start := { line := 3, column := 7 } } rfl (by decide) rfl (by decide)

/-- Claim C5, counterexample: with `rootDir` explicitly provided as the empty
string, a compiler working directory `/a`, and process working directory `/b`,
the TypeScript integration (`state.opts?.rootDir ?? state.cwd ?? ""`) resolves
the root to the process working directory `/b`, while the CommonJS shim
(`opts.rootDir || state.cwd || process.cwd()`) resolves it to `/a` — the two
integrations are not identical there, and neither uses the provided empty
`rootDir` as the root. -/
theorem rootResolution_empty_rootDir_counterexample :
    tsEffectiveRoot (tsStateNoFile (some "/a") (some "")) "/b" = "/b" ∧
    cjsEffectiveRoot (cjsStateNoFile (some "/a") (some "")) "/b" = "/a" ∧
    ("/b" : String) ≠ "/a" := by decide

/-- Claim C5 (amended): whenever the provided `rootDir` option, the compiler
state's working directory and the process working directory are non-empty,
both integrations resolve the root identically and by the claimed precedence:
the `rootDir` option first, else the state's working directory, else the
process working directory; they diverge only on empty-string inputs, which the
TypeScript integration's `??` keeps (the path service then resolves them to
the process working directory) while the shim's `||` skips. -/
theorem rootResolution_precedence (rootDirOpt stateCwd : Option String) (procCwd : String)
    (hr : rootDirOpt ≠ some "") (hc : stateCwd ≠ some "") (hp : procCwd ≠ "") :
    tsEffectiveRoot (tsStateNoFile stateCwd rootDirOpt) procCwd =
      cjsEffectiveRoot (cjsStateNoFile stateCwd rootDirOpt) procCwd ∧
    tsEffectiveRoot (tsStateNoFile stateCwd rootDirOpt) procCwd =
      rootDirOpt.getD (stateCwd.getD procCwd) := by
  cases rootDirOpt with
  | some r =>
    have hrne : r ≠ "" := fun h => hr (by rw [h])
    constructor <;>
      simp [tsEffectiveRoot, cjsEffectiveRoot, tsStateNoFile, cjsStateNoFile,
        getContextRootDir, cjsEffectiveRootDir, cjsStateOpts, resolveRootAgainstCwd,
        jsOrString, hrne]
  | none =>
    cases stateCwd with
    | some cw =>
      have hcne : cw ≠ "" := fun h => hc (by rw [h])
      constructor <;>
        simp [tsEffectiveRoot, cjsEffectiveRoot, tsStateNoFile, cjsStateNoFile,
          getContextRootDir, cjsEffectiveRootDir, cjsStateOpts, resolveRootAgainstCwd,
          jsOrString, hcne]
    | none =>
      constructor <;>
        simp [tsEffectiveRoot, cjsEffectiveRoot, tsStateNoFile, cjsStateNoFile,
          getContextRootDir, cjsEffectiveRootDir, cjsStateOpts, resolveRootAgainstCwd,
          jsOrString, hp]

/-- Claim C5 witness: the three precedence cases at concrete non-empty values,
and agreement of the two integrations on the first of them. -/
theorem rootResolution_precedence_witness :
    tsEffectiveRoot (tsStateNoFile (some "/c") (some "/r")) "/p" = "/r" ∧
    tsEffectiveRoot (tsStateNoFile (some "/c") none) "/p" = "/c" ∧
    tsEffectiveRoot (tsStateNoFile none none) "/p" = "/p" ∧
    tsEffectiveRoot (tsStateNoFile (some "/c") (some "/r")) "/p" =
      cjsEffectiveRoot (cjsStateNoFile (some "/c") (some "/r")) "/p" := by
  refine ⟨?_, ?_, ?_, ?_⟩
  · exact (rootResolution_precedence (some "/r") (some "/c") "/p"
      (by decide) (by decide) (by decide)).2
  · exact (rootResolution_precedence none (some "/c") "/p"
      (by decide) (by decide) (by decide)).2
  · exact (rootResolution_precedence none none "/p"
      (by decide) (by decide) (by decide)).2
  · exact (rootResolution_precedence (some "/r") (some "/c") "/p"
      (by decide) (by decide) (by decide)).1

/-- Claim C10: the idempotency check is scoped to the configured attribute
name only — `attrExists` matches exactly the non-spread attributes whose name
is a simple identifier equal to the given name; spread attributes and
attributes under any other name never prevent tagging; processing the same
element under two contexts with different attribute names leaves it carrying
both location attributes. -/
theorem attrExists_scoped_to_attribute_name
    (node : JSXOpeningElement) (name other : String) (v : Option JSXAttrValue)
    (n : JSXOpeningElement) (c1 c2 : JsxTaggerContext) (loc : SourceLocation) :
    (attrExists node name = true ↔
      ∃ w, JSXAttributeLike.jsxAttribute (.ident name) w ∈ node.attributes) ∧
    (attrExists { node with attributes :=
        JSXAttributeLike.jsxSpreadAttribute :: node.attributes } name =
      attrExists node name) ∧
    (other ≠ name →
      attrExists { node with attributes :=
          JSXAttributeLike.jsxAttribute (.ident other) v :: node.attributes } name =
        attrExists node name) ∧
    (n.loc = some loc →
      countNamedAttrs n c1.attributeName = 0 →
      countNamedAttrs n c2.attributeName = 0 →
      shouldTagElement n c1.options = true →
      shouldTagElement n c2.options = true →
      c1.attributeName ≠ c2.attributeName →
      (processJsxElement n c1).fst = true ∧
      (processJsxElement (processJsxElement n c1).snd c2).fst = true ∧
      countNamedAttrs (processJsxElement (processJsxElement n c1).snd c2).snd
        c1.attributeName = 1 ∧
      countNamedAttrs (processJsxElement (processJsxElement n c1).snd c2).snd
        c2.attributeName = 1) := by
  refine ⟨?_, ?_, ?_, ?_⟩
  · rw [attrExists_iff_exists_mem]
    constructor
    · rintro ⟨attr, hmem, hmatch⟩
      cases attr with
      | jsxAttribute an w =>
        cases an with
        | ident nm =>
          have hnm : nm = name := by simpa [isMatchingJsxAttribute] using hmatch
          subst hnm
          exact ⟨w, hmem⟩
        | namespacedName a b => simp [isMatchingJsxAttribute] at hmatch
      | jsxSpreadAttribute => simp [isMatchingJsxAttribute] at hmatch
    · rintro ⟨w, hmem⟩
      exact ⟨_, hmem, by simp [isMatchingJsxAttribute]⟩
  · simp [attrExists, List.any_cons, isMatchingJsxAttribute]
  · intro hne
    simp [attrExists, List.any_cons, isMatchingJsxAttribute, hne]
  · intro hloc h1 h2 hs1 hs2 hne
    have hane1 : attrExists n c1.attributeName = false :=
      (attrExists_false_iff n c1.attributeName).mpr h1
    have htag1 := processJsxElement_tag n c1 loc hloc hane1 hs1
    have hsnd1 : (processJsxElement n c1).snd =
        { n with attributes := n.attributes ++
          [createPathAttribute c1.attributeName c1.relativeFilename
            loc.start.line loc.start.column] } := by rw [htag1]
    have hcnt2 : countNamedAttrs
        { n with attributes := n.attributes ++
          [createPathAttribute c1.attributeName c1.relativeFilename
            loc.start.line loc.start.column] } c2.attributeName = 0 := by
      rw [countNamedAttrs_append_single, h2, if_neg hne]
    have hane2 : attrExists
        { n with attributes := n.attributes ++
          [createPathAttribute c1.attributeName c1.relativeFilename
            loc.start.line loc.start.column] } c2.attributeName = false :=
      (attrExists_false_iff _ _).mpr hcnt2
    have htag2 := processJsxElement_tag
      { n with attributes := n.attributes ++
        [createPathAttribute c1.attributeName c1.relativeFilename
          loc.start.line loc.start.column] } c2 loc hloc hane2 hs2
    refine ⟨by rw [htag1], ?_, ?_, ?_⟩
    · rw [hsnd1, htag2]
    · rw [hsnd1, htag2]
      show countNamedAttrs _ c1.attributeName = 1
      rw [countNamedAttrs_append_single, countNamedAttrs_append_single, h1,
        if_pos rfl, if_neg (Ne.symm hne)]
    · rw [hsnd1, htag2]
      show countNamedAttrs _ c2.attributeName = 1
      rw [countNamedAttrs_append_single, countNamedAttrs_append_single, h2,
        if_neg hne, if_pos rfl]

/-- Claim C10 witness: tagging the same fresh `div` under `data-path` and then
under `custom-path` leaves it carrying both location attributes. -/
theorem attrExists_scoped_to_attribute_name_witness :
    (processJsxElement divNode defaultCtx).fst = true ∧
    (processJsxElement (processJsxElement divNode defaultCtx).snd customCtx).fst = true ∧
    countNamedAttrs (processJsxElement (processJsxElement divNode defaultCtx).snd customCtx).snd
      defaultCtx.attributeName = 1 ∧
    countNamedAttrs (processJsxElement (processJsxElement divNode defaultCtx).snd customCtx).snd
      customCtx.attributeName = 1 :=
  (attrExists_scoped_to_attribute_name divNode "x" "y" none divNode defaultCtx customCtx
      { start := { line := 10, column := 5 } }).2.2.2
    rfl (by decide) (by decide) (by decide) (by decide) (by decide)
